import Mathlib

/-!
Shallow embedding of the GPT4All python bindings module
(gpt4all-bindings/python/gpt4all/gpt4all.py): the resumable download
protocol of GPT4All.download_model, the chat-session state machine
(GPT4All.chat_session, GPT4All.generate, GPT4All.current_chat_session),
and the dimensionality validation of Embed4All.embed.

Machine integers are modelled as Nat (byte counters, HTTP statuses) and
Int (python ints passed to the engine); byte strings as List Nat; text as
String.  Fallible code returns Except or an outcome inductive.  The
external inference engine and the HTTP server are modelled as explicit
inputs (a list of token responses, a sequence of HTTP responses); every
call the module makes to the engine is recorded in an explicit call log so
that theorems can speak about which calls happen and in which order.
-/

/-- Module constant DEFAULT_PROMPT_TEMPLATE. -/
def DEFAULT_PROMPT_TEMPLATE : String := "### Human:\n{0}\n\n### Assistant:\n"

/-- Does the character list hay begin with needle (needle is the first
argument)?  Used to build the substring test below. -/
def startsWith : List Char → List Char → Bool
  | [], _ => true
  | _ :: _, [] => false
  | a :: as, b :: bs => a == b && startsWith as bs

/-- Substring test on character lists: does needle occur contiguously in
hay?  Mirrors the python membership test on strings used at line 302 of
the source: the decimal offset being a substring of the Content-Range
header value. -/
def containsSub : List Char → List Char → Bool
  | n, [] => startsWith n []
  | n, c :: t => startsWith n (c :: t) || containsSub n t

/-- String form of the substring test. -/
def strContainsSub (needle hay : String) : Bool :=
  containsSub needle.data hay.data

/-- Does the regular expression fragment at the head of the list match:
the two characters of the reserved engine marker followed by anything but
a decimal digit (the negative lookahead of the source regex at line
513).  An empty tail counts as a match. -/
def bareMarkerAt (l : List Char) : Bool :=
  l.take 2 == ['%', '1'] && !((l.drop 2).headD ' ').isDigit

/-- re.search of the source regex: scan every position of the template
for a bare occurrence of the reserved marker. -/
def hasBareMarker : List Char → Bool
  | [] => false
  | c :: t => bareMarkerAt (c :: t) || hasBareMarker t

/-- Positional python str.format restricted to the slot forms the module
uses: a zero slot, a one slot, and doubled brace escapes; every other
character passes through unchanged. -/
def pyFormatChars (args : List String) : List Char → List Char
  | [] => []
  | '{' :: '{' :: rest => '{' :: pyFormatChars args rest
  | '}' :: '}' :: rest => '}' :: pyFormatChars args rest
  | '{' :: '0' :: '}' :: rest => (args.headD "").data ++ pyFormatChars args rest
  | '{' :: '1' :: '}' :: rest => ((args.drop 1).headD "").data ++ pyFormatChars args rest
  | c :: rest => c :: pyFormatChars args rest

/-- str.format on strings. -/
def pyFormat (tmpl : String) (args : List String) : String :=
  ⟨pyFormatChars args tmpl.data⟩

/-- A transcript message: the python dict with role and content keys. -/
structure Message where
  role : String
  content : String
deriving DecidableEq, Repr

/-- The mutable per object state of GPT4All that the session machinery
touches: the optional transcript self dot underscore history, the active
template self dot underscore current underscore prompt underscore
template, the model config dict, and the legacy formatting hook (some
when a subclass overrides the method underscore format underscore chat
underscore prompt underscore template, none for the class as defined in
the source file). -/
structure SessionState where
  history : Option (List Message)
  currentPromptTemplate : String
  config : List (String × String)
  fmtHook : Option (List Message → String → String)

/-- The ValueError raised by chat_session on a template containing a bare
reserved marker; the TemplateError of the specification taxonomy. -/
inductive TemplateError where
  | templateError
deriving DecidableEq, Repr

/-- Lines 503 to 518 of the source: entry into a chat session with the
already resolved system prompt and prompt template strings.  On a
template containing a bare reserved marker the entry raises before any
state is mutated; otherwise the transcript becomes the single system
message and the given template becomes active. -/
def chatSessionEnter (s : SessionState) (systemPrompt promptTemplate : String) :
    Except TemplateError SessionState :=
  if hasBareMarker promptTemplate.data then Except.error TemplateError.templateError
  else Except.ok ⟨some [⟨"system", systemPrompt⟩], promptTemplate, s.config, s.fmtHook⟩

/-- What the body of the with block does: finish normally (or by early
return) in some state, or raise in some state. -/
inductive BodyResult where
  | ok (s : SessionState)
  | err (s : SessionState)

/-- How the chat_session scope ends: a template validation error at entry
(state untouched), completion, or an exception propagating out of the
body; in the two latter cases the recorded state is the state after the
finally block of lines 519 to 523 ran. -/
inductive ScopeOutcome where
  | templateError (s : SessionState)
  | completed (s : SessionState)
  | raised (s : SessionState)

/-- The whole context manager chat_session: entry, body, and the finally
block that unconditionally clears the transcript and resets the template
to the default single slot form. -/
def chatSessionScope (s : SessionState) (systemPrompt promptTemplate : String)
    (body : SessionState → BodyResult) : ScopeOutcome :=
  match chatSessionEnter s systemPrompt promptTemplate with
  | Except.error _ => ScopeOutcome.templateError s
  | Except.ok s1 =>
    match body s1 with
    | BodyResult.ok s2 => ScopeOutcome.completed ⟨none, "{0}", s2.config, s2.fmtHook⟩
    | BodyResult.err s2 => ScopeOutcome.raised ⟨none, "{0}", s2.config, s2.fmtHook⟩

/-! ## Download manager (GPT4All.download_model, lines 269 to 349) -/

/-- One HTTP response as the downloader observes it: the status code, the
declared content length header (0 when absent), the Content-Range header
("" when absent), the data chunks iter_content yields, and whether the
stream ends abruptly in the retryable ChunkedEncodingError wrapping an
IncompleteRead (true) or ends cleanly (false). -/
structure Response where
  status : Nat
  contentLength : Nat
  contentRange : String
  chunks : List (List Nat)
  abrupt : Bool

/-- The distinct error sites of download_model, named after the
specification taxonomy: the generic non success status ValueError
(RemoteError), the range resumption ValueError (RangeUnsupportedError),
and the no progress RuntimeError (StalledDownloadError). -/
inductive DlError where
  | requestFailed (status : Nat)
  | rangeUnsupported
  | stalled
deriving DecidableEq, Repr

/-- In flight download state: the bytes written to the destination file so
far (the byte counter progress underscore bar dot n equals its length)
and the log of Range headers of all requests issued so far (none when no
Range header was sent). -/
structure DlState where
  file : List Nat
  reqLog : List (Option Nat)
deriving DecidableEq, Repr

/-- The Range header make_request attaches: python truthiness makes both
offset None and offset 0 send a plain request. -/
def rangeHeader (offset : Nat) : Option Nat :=
  if offset = 0 then none else some offset

/-- The response validation of make_request (lines 294 to 304): a status
outside 200 and 206 is a hard error; with a truthy offset, a status other
than 206 or a Content-Range header not containing the decimal offset is
the range resumption error. -/
def checkResp (offset : Nat) (r : Response) : Except DlError Response :=
  if r.status ≠ 200 ∧ r.status ≠ 206 then
    Except.error (DlError.requestFailed r.status)
  else if offset ≠ 0 ∧ (r.status ≠ 206 ∨ strContainsSub (Nat.repr offset) r.contentRange = false) then
    Except.error DlError.rangeUnsupported
  else Except.ok r

/-- Issue one request: the server is a sequence of responses indexed by
how many requests were made before; the Range header is logged. -/
def mkRequest (server : Nat → Response) (offset : Nat) (st : DlState) :
    Except (DlError × DlState) (Response × DlState) :=
  match checkResp offset (server st.reqLog.length) with
  | Except.error e => Except.error (e, ⟨st.file, st.reqLog ++ [rangeHeader offset]⟩)
  | Except.ok r2 => Except.ok (r2, ⟨st.file, st.reqLog ++ [rangeHeader offset]⟩)

/-- Result of the retry loop: clean break, an exception escaping the
loop, or the fuel bound exhausted (the source loop has no bound; fuel
makes the model total and lets non termination be stated). -/
inductive LoopOut where
  | done (st : DlState)
  | fail (e : DlError) (st : DlState)
  | fuelOut (st : DlState)

/-- The while True retry loop of lines 314 to 334.  Each round writes the
chunks of the current response; an abrupt stream end reissues the request
at the current offset with no progress check; a clean stream end short of
a non zero declared total raises the stalled error when the round added
no bytes and otherwise reissues the request; any other clean end breaks
the loop. -/
def dlLoop (server : Nat → Response) (total : Nat) :
    Nat → Response → DlState → LoopOut
  | 0, _, st => LoopOut.fuelOut st
  | fuel + 1, resp, st =>
    if resp.abrupt then
      match mkRequest server (st.file ++ resp.chunks.flatten).length
          ⟨st.file ++ resp.chunks.flatten, st.reqLog⟩ with
      | Except.error (e, st2) => LoopOut.fail e st2
      | Except.ok (r2, st2) => dlLoop server total fuel r2 st2
    else if total ≠ 0 ∧ (st.file ++ resp.chunks.flatten).length < total then
      if (st.file ++ resp.chunks.flatten).length = st.file.length then
        LoopOut.fail DlError.stalled ⟨st.file ++ resp.chunks.flatten, st.reqLog⟩
      else
        match mkRequest server (st.file ++ resp.chunks.flatten).length
            ⟨st.file ++ resp.chunks.flatten, st.reqLog⟩ with
        | Except.error (e, st2) => LoopOut.fail e st2
        | Except.ok (r2, st2) => dlLoop server total fuel r2 st2
    else LoopOut.done ⟨st.file ++ resp.chunks.flatten, st.reqLog⟩

/-- Result of the download before the cleanup wrapper is applied. -/
inductive CoreOut where
  | initError (e : DlError) (log : List (Option Nat))
  | coreDone (st : DlState)
  | coreFail (e : DlError) (st : DlState)
  | coreFuel (st : DlState)

/-- The initial request (line 306, before the destination file is even
opened), the declared total read from the first response, and the retry
loop. -/
def downloadCore (server : Nat → Response) (fuel : Nat) : CoreOut :=
  match mkRequest server 0 ⟨[], []⟩ with
  | Except.error (e, st) => CoreOut.initError e st.reqLog
  | Except.ok (r, st) =>
    match dlLoop server r.contentLength fuel r st with
    | LoopOut.done st2 => CoreOut.coreDone st2
    | LoopOut.fail e st2 => CoreOut.coreFail e st2
    | LoopOut.fuelOut st2 => CoreOut.coreFuel st2

/-- Final outcome of a download_model call. -/
inductive DlOutcome where
  | success
  | failure (e : DlError)
  | fuelExhausted
deriving DecidableEq, Repr

/-- Overall observable result: the outcome, the destination file as left
on disk (none when absent or deleted), and the request log. -/
structure DlResult where
  outcome : DlOutcome
  fileOnDisk : Option (List Nat)
  reqLog : List (Option Nat)

/-- download_model with its cleanup wrapper (lines 335 to 342): any
exception escaping the loop triggers a best effort deletion of the
destination file, with a failing deletion (removeFails true, the
swallowed OSError) leaving the bytes in place, and the original error
propagating either way.  A failure of the initial request happens before
the file is created, so nothing is on disk in that case. -/
def download_model (server : Nat → Response) (fuel : Nat) (removeFails : Bool) : DlResult :=
  match downloadCore server fuel with
  | CoreOut.initError e log => ⟨DlOutcome.failure e, none, log⟩
  | CoreOut.coreDone st => ⟨DlOutcome.success, some st.file, st.reqLog⟩
  | CoreOut.coreFail e st =>
    ⟨DlOutcome.failure e, if removeFails then some st.file else none, st.reqLog⟩
  | CoreOut.coreFuel st => ⟨DlOutcome.fuelExhausted, some st.file, st.reqLog⟩

/-- A server whose declared total is n but which always closes the socket
mid body after delivering nothing: every round is an abrupt zero byte
round. -/
def stalledAbruptServer (n : Nat) : Nat → Response :=
  fun _ => ⟨200, n, "", [], true⟩

/-- A server whose declared total is 5 but whose streams end cleanly with
no data at all. -/
def cleanStallServer : Nat → Response :=
  fun _ => ⟨200, 5, "", [], false⟩

/-- A server that answers every request with a hard HTTP error. -/
def failingServer : Nat → Response :=
  fun _ => ⟨404, 0, "", [], false⟩

/-- The download call exhausts every fuel bound: the source loop, which
the fuel parameter merely truncates, never terminates on this server. -/
def downloadRunsForever (server : Nat → Response) : Prop :=
  ∀ fuel : Nat, (download_model server fuel false).outcome = DlOutcome.fuelExhausted

/-- First response of the single disconnect scenario: full declared
length, the first k bytes delivered, then an abrupt close. -/
def firstPartResp (bytes : List Nat) (k : Nat) : Response :=
  ⟨200, bytes.length, "", [bytes.take k], true⟩

/-- The well behaved resumed response: partial content status, a standard
Content-Range header for a resume at offset k, and the remaining bytes
delivered cleanly. -/
def goodResume (bytes : List Nat) (k : Nat) : Response :=
  ⟨206, bytes.length - k,
    ⟨"bytes ".data ++ ((Nat.repr k).data ++ ("-".data ++ ((Nat.repr (bytes.length - 1)).data ++ ("/".data ++ (Nat.repr bytes.length).data))))⟩,
    [bytes.drop k], false⟩

/-- A server that disconnects once after k bytes and then answers every
further request with the given second response. -/
def resumeServer (bytes : List Nat) (k : Nat) (second : Response) : Nat → Response :=
  fun i => if i = 0 then firstPartResp bytes k else second

/-- A server that delivers the whole file in one clean response. -/
def uninterruptedServer (bytes : List Nat) : Nat → Response :=
  fun _ => ⟨200, bytes.length, "", [bytes], false⟩

/-! ## Embed4All.embed (lines 94 to 132) -/

/-- Class constant MIN_DIMENSIONALITY. -/
def MIN_DIMENSIONALITY : Int := 64

/-- The two ValueError sites of embed, the ConfigError of the
specification taxonomy. -/
inductive EmbedError where
  | invalidDimensionality
  | invalidLongTextMode
deriving DecidableEq, Repr

/-- The arguments of the single generate_embeddings engine call embed
makes when validation passes. -/
structure EmbedCall where
  text : String
  pfx : Option String
  dimensionality : Int
  doMean : Bool
  atlas : Bool
deriving DecidableEq, Repr

/-- The dict lookup on the long text mode (line 128): mean and truncate
map to the mean flag, anything else is a KeyError turned ValueError. -/
def longTextModeFlag (m : String) : Option Bool :=
  if m = "mean" then some true
  else if m = "truncate" then some false
  else none

/-- Outcome of embed up to the engine boundary: whether the performance
warning was emitted, and either the error raised before the engine call
or the one engine call made. -/
structure EmbedOutcome where
  warned : Bool
  result : Except EmbedError EmbedCall
deriving Repr

/-- The long text mode step shared by both dimensionality branches. -/
def embedModeStep (text : String) (pfx : Option String) (dim : Int)
    (longTextMode : String) (atlas : Bool) : Except EmbedError EmbedCall :=
  match longTextModeFlag longTextMode with
  | none => Except.error EmbedError.invalidLongTextMode
  | some doMean => Except.ok ⟨text, pfx, dim, doMean, atlas⟩

/-- Embed4All.embed restricted to what precedes and reaches the engine
call: a missing dimensionality becomes minus one (full size); a non
positive dimensionality raises before anything else; a positive
dimensionality below the minimum emits the performance warning; then the
long text mode is resolved and the engine is called exactly once. -/
def embed (text : String) (pfx : Option String) (dimensionality : Option Int)
    (longTextMode : String) (atlas : Bool) : EmbedOutcome :=
  match dimensionality with
  | none => ⟨false, embedModeStep text pfx (-1) longTextMode atlas⟩
  | some d =>
    if d ≤ 0 then ⟨false, Except.error EmbedError.invalidDimensionality⟩
    else ⟨decide (d < MIN_DIMENSIONALITY), embedModeStep text pfx d longTextMode atlas⟩

/-! ## GPT4All.generate (lines 370 to 487), non streaming path -/

/-- One prompt_model invocation as recorded on the engine boundary: the
prompt text, the template, the effective token cap n_predict, whether
special token processing was requested, the reset_context keyword (none
when the call does not pass it, as the priming call does not), and the
batch size. -/
structure EngineCall where
  prompt : String
  template : String
  nPredict : Int
  special : Bool
  resetContext : Option Bool
  nBatch : Int
deriving DecidableEq, Repr

/-- The caller supplied arguments of one generate call together with the
token stream the engine would produce for its visible call. -/
structure GenInput where
  prompt : String
  maxTokens : Int
  nPredict : Option Int
  nBatch : Int
  engineResponses : List (Int × String)

/-- Line 416: n_predict if n_predict is not None else max_tokens. -/
def reconcileNPredict (maxTokens : Int) : Option Int → Int
  | some n => n
  | none => maxTokens

/-- output_collector[-1]["content"] += response: append to the content of
the last message, leaving everything else in place. -/
def updateLastContent : List Message → String → List Message
  | [], _ => []
  | [m], resp => [⟨m.role, m.content ++ resp⟩]
  | m :: m2 :: rest, resp => m :: updateLastContent (m2 :: rest) resp

/-- The wrapped callback processing the token stream: every response is
accumulated into the last message before the caller callback decides
whether generation continues. -/
def runCallbacks (cb : Int → String → Bool) :
    List (Int × String) → List Message → List Message
  | [], oc => oc
  | (tid, resp) :: rest, oc =>
    if cb tid resp then runCallbacks cb rest (updateLastContent oc resp)
    else updateLastContent oc resp

/-- The deprecated helper _format_chat_prompt_template of lines 525 to
557: header, then each user message rendered through the session
template and each assistant message appended verbatim with a newline,
then the footer. -/
def formatChatPromptTemplate (tmpl : String) (messages : List Message)
    (defaultPromptHeader defaultPromptFooter : String) : String :=
  let base := if defaultPromptHeader ≠ "" then defaultPromptHeader ++ "\n\n" else ""
  let mid := messages.foldl
    (fun acc m =>
      if m.role = "user" then acc ++ pyFormat tmpl [m.content]
      else if m.role = "assistant" then acc ++ m.content ++ "\n"
      else acc)
    base
  if defaultPromptFooter ≠ "" then mid ++ "\n\n" ++ defaultPromptFooter else mid

/-- Everything a non streaming generate call produces: the new object
state, the ordered log of prompt_model invocations, and the returned
string. -/
structure GenOutput where
  state : SessionState
  calls : List EngineCall
  result : String

/-- The content of the last message, the return value of generate. -/
def lastContent (l : List Message) : String :=
  match l with
  | [] => ""
  | [m] => m.content
  | _ :: m2 :: rest => lastContent (m2 :: rest)

/-- GPT4All.generate, non streaming.  With no active session the prompt
goes out under the trivial template with reset_context true and a
throwaway collector.  With an active session the reset flag is whether
only the system message is present; the user message is appended; with
the class default formatting (fmtHook none) a reset turn first sends the
system content as a zero output special priming call, and the visible
call goes out under the two slot rendering of the session template; with
an overriding hook (the deprecated path) the hook pre renders the prompt
from the last message and the reset header, under the trivial template.
Either way an empty assistant message is appended and the token stream is
accumulated into it. -/
def generate (s : SessionState) (gin : GenInput) (cb : Int → String → Bool) : GenOutput :=
  let nPredictEff := reconcileNPredict gin.maxTokens gin.nPredict
  match s.history with
  | none =>
    let oc := runCallbacks cb gin.engineResponses [⟨"", ""⟩]
    ⟨⟨none, s.currentPromptTemplate, s.config, s.fmtHook⟩,
      [⟨gin.prompt, "%1", nPredictEff, false, some true, gin.nBatch⟩],
      lastContent oc⟩
  | some hist =>
    let reset : Bool := hist.length == 1
    let hist1 := hist ++ [⟨"user", gin.prompt⟩]
    match s.fmtHook with
    | none =>
      let primingCalls : List EngineCall :=
        if reset then [⟨(hist.headD ⟨"", ""⟩).content, "%1", 0, true, none, gin.nBatch⟩]
        else []
      let tmplEff := pyFormat s.currentPromptTemplate ["%1", "%2"]
      let hist3 := runCallbacks cb gin.engineResponses (hist1 ++ [⟨"assistant", ""⟩])
      ⟨⟨some hist3, s.currentPromptTemplate, s.config, s.fmtHook⟩,
        primingCalls ++ [⟨gin.prompt, tmplEff, nPredictEff, false, some reset, gin.nBatch⟩],
        lastContent hist3⟩
    | some hook =>
      let rendered := hook [⟨"user", gin.prompt⟩]
        (if reset then (hist.headD ⟨"", ""⟩).content else "")
      let hist3 := runCallbacks cb gin.engineResponses (hist1 ++ [⟨"assistant", ""⟩])
      ⟨⟨some hist3, s.currentPromptTemplate, s.config, s.fmtHook⟩,
        [⟨rendered, "%1", nPredictEff, false, some reset, gin.nBatch⟩],
        lastContent hist3⟩

/-- A sequence of generate calls threaded through the session state. -/
def runGenerates (inputs : List (GenInput × (Int → String → Bool))) (s : SessionState) :
    SessionState :=
  match inputs with
  | [] => s
  | (gin, cb) :: rest => runGenerates rest (generate s gin cb).state

/-- The role sequence of k user and assistant turn pairs. -/
def altRoles : Nat → List String
  | 0 => []
  | k + 1 => "user" :: "assistant" :: altRoles k

/-! ## current_chat_session (lines 189 to 191) with list identity

A python list is a heap cell; list(self._history) allocates a fresh cell
with the same elements, so mutation through the returned reference cannot
reach the internal transcript. -/

/-- A heap of python list objects; an address is an index. -/
structure PyListHeap where
  cells : List (List Message)

/-- Dereference an address. -/
def heapLookup (h : PyListHeap) (a : Nat) : Option (List Message) :=
  h.cells.get? a

/-- Allocate a fresh list object, returning its address. -/
def heapAlloc (h : PyListHeap) (v : List Message) : Nat × PyListHeap :=
  (h.cells.length, ⟨h.cells ++ [v]⟩)

/-- Mutate the list object at an address in place. -/
def heapSet (h : PyListHeap) (a : Nat) (v : List Message) : PyListHeap :=
  ⟨h.cells.set a v⟩

/-- The current_chat_session property: None when no session is active,
otherwise a freshly allocated shallow copy of the internal transcript. -/
def current_chat_session (h : PyListHeap) (historyRef : Option Nat) :
    Option Nat × PyListHeap :=
  match historyRef with
  | none => (none, h)
  | some r =>
    let copied := (heapLookup h r).getD []
    ((heapAlloc h copied).1, (heapAlloc h copied).2)

/-! ## Helper lemmas -/

theorem startsWith_append_self (n t : List Char) : startsWith n (n ++ t) = true := by
  induction n with
  | nil => rfl
  | cons a as ih => simp [startsWith, ih]

theorem containsSub_of_startsWith (n h : List Char) (hs : startsWith n h = true) :
    containsSub n h = true := by
  cases h with
  | nil => simpa [containsSub] using hs
  | cons c t => simp [containsSub, hs]

theorem containsSub_append_of_right (n pre rest : List Char)
    (h : containsSub n rest = true) : containsSub n (pre ++ rest) = true := by
  induction pre with
  | nil => simpa using h
  | cons c p ih => simp [containsSub, ih]

theorem strContainsSub_mid (s : String) (p q : List Char) :
    strContainsSub s ⟨p ++ (s.data ++ q)⟩ = true :=
  containsSub_append_of_right _ _ _
    (containsSub_of_startsWith _ _ (startsWith_append_self _ _))

theorem startsWith_marker_of_bare (l : List Char) (h : bareMarkerAt l = true) :
    startsWith ['%', '1'] l = true := by
  unfold bareMarkerAt at h
  rw [Bool.and_eq_true] at h
  have h1 : l.take 2 = ['%', '1'] := by
    have h2 := h.1
    rwa [beq_iff_eq] at h2
  rcases l with _ | ⟨c1, _ | ⟨c2, rest⟩⟩
  · simp at h1
  · simp at h1
  · simp only [List.take_succ_cons, List.take_zero, List.cons.injEq, and_true] at h1
    obtain ⟨hc1, hc2⟩ := h1
    subst hc1
    subst hc2
    simp [startsWith]

theorem containsSub_of_bareMarker : ∀ l, hasBareMarker l = true →
    containsSub ['%', '1'] l = true := by
  intro l
  induction l with
  | nil => simp [hasBareMarker]
  | cons c t ih =>
    intro h
    rw [hasBareMarker, Bool.or_eq_true] at h
    rcases h with h | h
    · exact containsSub_of_startsWith _ _ (startsWith_marker_of_bare _ h)
    · simp [containsSub, ih h]

/-! ## Claim theorems -/

/-- C5: a prompt template containing the reserved engine marker as a bare
literal (the marker not followed by a decimal digit, the source regex) is
rejected at session entry with the template error before any state
changes; a template not containing the reserved marker at all is
accepted, and entry installs the system message and the template. -/
theorem chat_session_template_validation (s : SessionState) (sysP tmpl : String) :
    (hasBareMarker tmpl.data = true →
      chatSessionEnter s sysP tmpl = Except.error TemplateError.templateError) ∧
    (strContainsSub "%1" tmpl = false →
      chatSessionEnter s sysP tmpl =
        Except.ok ⟨some [⟨"system", sysP⟩], tmpl, s.config, s.fmtHook⟩) := by
  constructor
  · intro h
    simp [chatSessionEnter, h]
  · intro h
    have hb : hasBareMarker tmpl.data = false := by
      by_contra hb
      rw [Bool.not_eq_false] at hb
      have hc := containsSub_of_bareMarker _ hb
      have hdata : "%1".data = ['%', '1'] := by decide
      rw [strContainsSub, hdata] at h
      rw [h] at hc
      exact Bool.false_ne_true hc
    simp [chatSessionEnter, hb]

/-- Witness for C5 at concrete templates: a template with a bare marker
is rejected, one without the marker is accepted. -/
theorem chat_session_template_validation_witness :
    (chatSessionEnter ⟨none, "{0}", [], none⟩ "sys" "bad %1 tmpl" =
      Except.error TemplateError.templateError) ∧
    (chatSessionEnter ⟨none, "{0}", [], none⟩ "sys" "### User: {0}" =
      Except.ok ⟨some [⟨"system", "sys"⟩], "### User: {0}", [], none⟩) :=
  ⟨(chat_session_template_validation ⟨none, "{0}", [], none⟩ "sys" "bad %1 tmpl").1
      (by decide),
   (chat_session_template_validation ⟨none, "{0}", [], none⟩ "sys" "### User: {0}").2
      (by decide)⟩

/-- C4: however the chat_session scope is left once entry succeeded, by
normal completion, early return, or an exception raised inside the scope,
the finally block leaves the session inactive: the transcript is cleared
and the active template is reset to its default. -/
theorem chat_session_exit_restores_inactive (s : SessionState)
    (sysP tmpl : String) (body : SessionState → BodyResult) (s2 : SessionState)
    (h : chatSessionScope s sysP tmpl body = ScopeOutcome.completed s2 ∨
         chatSessionScope s sysP tmpl body = ScopeOutcome.raised s2) :
    s2.history = none ∧ s2.currentPromptTemplate = "{0}" := by
  have hval : chatSessionScope s sysP tmpl body = ScopeOutcome.templateError s ∨
      (∃ s3 : SessionState, chatSessionScope s sysP tmpl body =
        ScopeOutcome.completed ⟨none, "{0}", s3.config, s3.fmtHook⟩) ∨
      (∃ s3 : SessionState, chatSessionScope s sysP tmpl body =
        ScopeOutcome.raised ⟨none, "{0}", s3.config, s3.fmtHook⟩) := by
    unfold chatSessionScope
    rcases chatSessionEnter s sysP tmpl with e | s1
    · exact Or.inl rfl
    · dsimp only
      rcases body s1 with s3 | s3
      · exact Or.inr (Or.inl ⟨s3, rfl⟩)
      · exact Or.inr (Or.inr ⟨s3, rfl⟩)
  rcases hval with heq | ⟨s3, heq⟩ | ⟨s3, heq⟩ <;> rw [heq] at h <;>
    rcases h with h | h <;> cases h <;> exact ⟨rfl, rfl⟩

/-- Witness for C4: a body that raises still leaves the state inactive. -/
theorem chat_session_exit_restores_inactive_witness :
    (⟨none, "{0}", [], none⟩ : SessionState).history = none ∧
    (⟨none, "{0}", [], none⟩ : SessionState).currentPromptTemplate = "{0}" :=
  chat_session_exit_restores_inactive ⟨none, "x", [], none⟩ "sys" "tpl"
    (fun s1 => BodyResult.err ⟨s1.history, s1.currentPromptTemplate, [], none⟩)
    ⟨none, "{0}", [], none⟩ (Or.inr rfl)

/-- C8: for an explicitly supplied embedding dimensionality d (with a
valid long text mode), a non positive d raises the configuration error
before any engine call (the outcome carries no engine call), a d between
one and sixty three proceeds to exactly one engine call but emits the
performance warning, and a d of at least sixty four proceeds to exactly
one engine call with no warning. -/
theorem embed_dimensionality_validation (text : String) (pfx : Option String)
    (d : Int) (mode : String) (atlas : Bool)
    (hmode : longTextModeFlag mode ≠ none) :
    (d ≤ 0 → embed text pfx (some d) mode atlas =
      ⟨false, Except.error EmbedError.invalidDimensionality⟩) ∧
    (0 < d → d < 64 → ∃ c : EmbedCall,
      embed text pfx (some d) mode atlas = ⟨true, Except.ok c⟩ ∧
      c.dimensionality = d) ∧
    (64 ≤ d → ∃ c : EmbedCall,
      embed text pfx (some d) mode atlas = ⟨false, Except.ok c⟩ ∧
      c.dimensionality = d) := by
  rcases hm : longTextModeFlag mode with _ | b
  · exact absurd hm hmode
  · refine ⟨fun hle => ?_, fun hpos hlt => ?_, fun hge => ?_⟩
    · simp [embed, hle]
    · refine ⟨⟨text, pfx, d, b, atlas⟩, ?_, rfl⟩
      have hne : ¬ d ≤ 0 := by omega
      simp [embed, hne, embedModeStep, hm, MIN_DIMENSIONALITY, hlt]
    · refine ⟨⟨text, pfx, d, b, atlas⟩, ?_, rfl⟩
      have hne : ¬ d ≤ 0 := by omega
      have hnl : ¬ d < MIN_DIMENSIONALITY := by
        rw [MIN_DIMENSIONALITY]; omega
      simp [embed, hne, embedModeStep, hm, hnl]

/-- Witness for C8 at dimensionalities minus three, thirty two and sixty
four with the default mean mode. -/
theorem embed_dimensionality_validation_witness :
    (embed "x" none (some (-3)) "mean" false =
      ⟨false, Except.error EmbedError.invalidDimensionality⟩) ∧
    (∃ c : EmbedCall, embed "x" none (some 32) "mean" false = ⟨true, Except.ok c⟩ ∧
      c.dimensionality = 32) ∧
    (∃ c : EmbedCall, embed "x" none (some 64) "mean" false = ⟨false, Except.ok c⟩ ∧
      c.dimensionality = 64) :=
  ⟨(embed_dimensionality_validation "x" none (-3) "mean" false (by decide)).1
      (by norm_num),
   (embed_dimensionality_validation "x" none 32 "mean" false (by decide)).2.1
      (by norm_num) (by norm_num),
   (embed_dimensionality_validation "x" none 64 "mean" false (by decide)).2.2
      (by norm_num)⟩

theorem updateLastContent_map_role (l : List Message) (r : String) :
    (updateLastContent l r).map Message.role = l.map Message.role := by
  induction l with
  | nil => rfl
  | cons m rest ih =>
    cases rest with
    | nil => rfl
    | cons m2 rest2 => simp [updateLastContent, ih]

theorem runCallbacks_map_role (cb : Int → String → Bool)
    (rs : List (Int × String)) : ∀ oc : List Message,
    (runCallbacks cb rs oc).map Message.role = oc.map Message.role := by
  induction rs with
  | nil => intro oc; rfl
  | cons p rest ih =>
    intro oc
    rcases p with ⟨tid, resp⟩
    simp only [runCallbacks]
    split
    · rw [ih, updateLastContent_map_role]
    · rw [updateLastContent_map_role]

theorem altRoles_length (k : Nat) : (altRoles k).length = 2 * k := by
  induction k with
  | zero => rfl
  | succ n ih =>
    simp only [altRoles, List.length_cons, ih]
    omega

theorem count_system_altRoles (k : Nat) : List.count "system" (altRoles k) = 0 := by
  induction k with
  | zero => rfl
  | succ n ih => simp [altRoles, List.count_cons, ih]

theorem generate_roles_step (s : SessionState) (H : List Message)
    (gin : GenInput) (cb : Int → String → Bool) (hH : s.history = some H) :
    ∃ H2, (generate s gin cb).state.history = some H2 ∧
      H2.map Message.role = H.map Message.role ++ ["user", "assistant"] := by
  obtain ⟨hist, tmpl, cfg, hook⟩ := s
  have hH2 : hist = some H := hH
  subst hH2
  rcases hook with _ | f
  · refine ⟨_, rfl, ?_⟩
    rw [runCallbacks_map_role]
    simp
  · refine ⟨_, rfl, ?_⟩
    rw [runCallbacks_map_role]
    simp

theorem runGenerates_roles :
    ∀ (inputs : List (GenInput × (Int → String → Bool))) (s : SessionState)
      (H : List Message), s.history = some H →
    ∃ H2, (runGenerates inputs s).history = some H2 ∧
      H2.map Message.role = H.map Message.role ++ altRoles inputs.length := by
  intro inputs
  induction inputs with
  | nil =>
    intro s H hH
    exact ⟨H, hH, by simp [altRoles]⟩
  | cons p rest ih =>
    intro s H hH
    rcases p with ⟨gin, cb⟩
    obtain ⟨H1, h1, hr1⟩ := generate_roles_step s H gin cb hH
    obtain ⟨H2, h2, hr2⟩ := ih (generate s gin cb).state H1 h1
    refine ⟨H2, h2, ?_⟩
    rw [hr2, hr1, List.append_assoc]
    rfl

/-- C3: in an active session with the class default formatting, the first
generate call after session entry (transcript holding only the system
message) issues exactly one zero output special priming call carrying the
system message content, immediately followed by the single visible call
for the user turn; a generate call at any other transcript length issues
no priming call, only the visible call. -/
theorem generate_first_turn_priming (sysMsg : Message) (tmpl : String)
    (cfg : List (String × String)) (hist : List Message)
    (gin1 gin2 : GenInput) (cb1 cb2 : Int → String → Bool)
    (hlen : hist.length ≠ 1) :
    (generate ⟨some [sysMsg], tmpl, cfg, none⟩ gin1 cb1).calls =
      [⟨sysMsg.content, "%1", 0, true, none, gin1.nBatch⟩,
       ⟨gin1.prompt, pyFormat tmpl ["%1", "%2"],
         reconcileNPredict gin1.maxTokens gin1.nPredict, false, some true, gin1.nBatch⟩] ∧
    (generate ⟨some hist, tmpl, cfg, none⟩ gin2 cb2).calls =
      [⟨gin2.prompt, pyFormat tmpl ["%1", "%2"],
         reconcileNPredict gin2.maxTokens gin2.nPredict, false, some false, gin2.nBatch⟩] := by
  constructor
  · simp [generate]
  · have hr : (hist.length == 1) = false := by
      cases h2 : hist.length == 1
      · rfl
      · exact absurd (by rwa [beq_iff_eq] at h2) hlen
    simp [generate, hr]

/-- Witness for C3: a concrete first turn issues the priming call then
the visible call; a concrete later turn issues only the visible call. -/
theorem generate_first_turn_priming_witness :
    (generate ⟨some [⟨"system", "SYS"⟩], "T: {0}", [], none⟩
        ⟨"hi", 200, none, 8, [(1, "ok")]⟩ (fun _ _ => true)).calls =
      [⟨"SYS", "%1", 0, true, none, 8⟩,
       ⟨"hi", "T: %1", 200, false, some true, 8⟩] ∧
    (generate ⟨some [⟨"system", "SYS"⟩, ⟨"user", "hi"⟩, ⟨"assistant", "ok"⟩],
        "T: {0}", [], none⟩
        ⟨"again", 200, none, 8, [(1, "ok")]⟩ (fun _ _ => true)).calls =
      [⟨"again", "T: %1", 200, false, some false, 8⟩] :=
  generate_first_turn_priming ⟨"system", "SYS"⟩ "T: {0}" []
    [⟨"system", "SYS"⟩, ⟨"user", "hi"⟩, ⟨"assistant", "ok"⟩]
    ⟨"hi", 200, none, 8, [(1, "ok")]⟩ ⟨"again", 200, none, 8, [(1, "ok")]⟩
    (fun _ _ => true) (fun _ _ => true) (by decide)

/-- C9: every non streaming generate call issues its visible engine call
last, and the token cap passed on that call is the reconciliation of
max_tokens with the legacy n_predict alias: n_predict whenever it is
supplied, max_tokens otherwise. -/
theorem generate_token_cap_reconciliation (s : SessionState) (gin : GenInput)
    (cb : Int → String → Bool) :
    (∃ pre mc, (generate s gin cb).calls = pre ++ [mc] ∧
      mc.special = false ∧
      mc.nPredict = reconcileNPredict gin.maxTokens gin.nPredict) ∧
    (∀ n : Int, reconcileNPredict gin.maxTokens (some n) = n) ∧
    reconcileNPredict gin.maxTokens none = gin.maxTokens := by
  refine ⟨?_, fun n => rfl, rfl⟩
  obtain ⟨hist, tmpl, cfg, hook⟩ := s
  rcases hist with _ | h
  · exact ⟨[], _, rfl, rfl, rfl⟩
  · rcases hook with _ | f
    · exact ⟨_, _, rfl, rfl, rfl⟩
    · exact ⟨[], _, rfl, rfl, rfl⟩

/-- C6: in a session opened with a system prompt, after any k generate
calls the transcript has length 1 + 2 k, its role sequence is the system
role followed by user and assistant alternating in call order, and
exactly one system message exists (so it stays at index 0). -/
theorem transcript_role_alternation (sysP tmpl : String)
    (cfg : List (String × String))
    (hook : Option (List Message → String → String))
    (inputs : List (GenInput × (Int → String → Bool))) :
    ∃ H, (runGenerates inputs ⟨some [⟨"system", sysP⟩], tmpl, cfg, hook⟩).history
        = some H ∧
      H.length = 1 + 2 * inputs.length ∧
      H.map Message.role = "system" :: altRoles inputs.length ∧
      List.count "system" (H.map Message.role) = 1 := by
  obtain ⟨H, hH, hr⟩ := runGenerates_roles inputs
    ⟨some [⟨"system", sysP⟩], tmpl, cfg, hook⟩ [⟨"system", sysP⟩] rfl
  have hroles : H.map Message.role = "system" :: altRoles inputs.length := by
    simpa using hr
  refine ⟨H, hH, ?_, hroles, ?_⟩
  · have h3 := congrArg List.length hroles
    simp only [List.length_map, List.length_cons, altRoles_length] at h3
    omega
  · rw [hroles]
    simp [List.count_cons, count_system_altRoles]

theorem get_q_append_left {α : Type} :
    ∀ (l1 l2 : List α) (i : Nat), i < l1.length → (l1 ++ l2).get? i = l1.get? i := by
  intro l1
  induction l1 with
  | nil => intro l2 i h; simp at h
  | cons a t ih =>
    intro l2 i h
    cases i with
    | zero => rfl
    | succ n =>
      simp only [List.cons_append, List.get?]
      exact ih l2 n (by simpa using h)

theorem get_q_append_length {α : Type} (l : List α) (x : α) :
    (l ++ [x]).get? l.length = some x := by
  induction l with
  | nil => rfl
  | cons a t ih =>
    simp only [List.cons_append, List.length_cons, List.get?]
    exact ih

theorem get_q_set_ne {α : Type} :
    ∀ (l : List α) (i j : Nat) (v : α), i ≠ j → (l.set i v).get? j = l.get? j := by
  intro l
  induction l with
  | nil => intro i j v hij; rfl
  | cons a t ih =>
    intro i j v hij
    cases i with
    | zero =>
      cases j with
      | zero => exact absurd rfl hij
      | succ m => rfl
    | succ n =>
      cases j with
      | zero => rfl
      | succ m =>
        simp only [List.set, List.get?]
        exact ih n m v (by omega)

theorem get_q_lt_isSome {α : Type} :
    ∀ (l : List α) (i : Nat), i < l.length → ∃ v, l.get? i = some v := by
  intro l
  induction l with
  | nil => intro i h; simp at h
  | cons a t ih =>
    intro i h
    cases i with
    | zero => exact ⟨a, rfl⟩
    | succ n => exact ih n (by simpa using h)

/-- C10: the current_chat_session accessor yields none exactly when no
session is active; with an active session it allocates a fresh list cell
(an address distinct from the internal one) holding an element wise equal
copy of the internal transcript, modifies no existing cell, and mutating
the returned list afterwards leaves the internal transcript unchanged. -/
theorem current_chat_session_fresh_copy (h : PyListHeap) (historyRef : Option Nat) :
    ((current_chat_session h historyRef).1 = none ↔ historyRef = none) ∧
    (∀ r : Nat, historyRef = some r → r < h.cells.length →
      ∃ a h2, current_chat_session h (some r) = (some a, h2) ∧
        a ≠ r ∧
        heapLookup h2 a = heapLookup h r ∧
        (∀ b, b < h.cells.length → heapLookup h2 b = heapLookup h b) ∧
        (∀ v, heapLookup (heapSet h2 a v) r = heapLookup h r)) := by
  constructor
  · cases historyRef with
    | none => simp [current_chat_session]
    | some r => simp [current_chat_session, heapAlloc]
  · intro r hr hlt
    obtain ⟨orig, horig⟩ := get_q_lt_isSome h.cells r hlt
    have hlook : heapLookup h r = some orig := horig
    have hne : h.cells.length ≠ r := by omega
    refine ⟨h.cells.length, ⟨h.cells ++ [orig]⟩, ?_, hne, ?_, ?_, ?_⟩
    · simp [current_chat_session, heapAlloc, hlook]
    · show (h.cells ++ [orig]).get? h.cells.length = heapLookup h r
      rw [get_q_append_length, hlook]
    · intro b hb
      show (h.cells ++ [orig]).get? b = heapLookup h b
      rw [get_q_append_left _ _ _ hb]
      rfl
    · intro v
      show ((h.cells ++ [orig]).set h.cells.length v).get? r = heapLookup h r
      rw [get_q_set_ne _ _ _ v hne, get_q_append_left _ _ _ hlt]
      rfl

/-- Witness for C10 on a one cell heap holding a one message transcript. -/
theorem current_chat_session_fresh_copy_witness :
    ∃ a h2, current_chat_session ⟨[[⟨"system", "s"⟩]]⟩ (some 0) = (some a, h2) ∧
      a ≠ 0 ∧
      heapLookup h2 a = heapLookup ⟨[[⟨"system", "s"⟩]]⟩ 0 ∧
      (∀ b, b < 1 → heapLookup h2 b = heapLookup ⟨[[⟨"system", "s"⟩]]⟩ b) ∧
      (∀ v, heapLookup (heapSet h2 a v) 0 = heapLookup ⟨[[⟨"system", "s"⟩]]⟩ 0) :=
  (current_chat_session_fresh_copy ⟨[[⟨"system", "s"⟩]]⟩ (some 0)).2 0 rfl
    (by decide)

/-- C7: whenever download_model fails, the cleanup handler leaves no
partially written destination file behind (when the removal itself
succeeds) before the original error propagates; a failing removal is
swallowed and the very same original error propagates anyway. -/
theorem download_model_cleanup_on_failure (server : Nat → Response) (fuel : Nat)
    (rf : Bool) (e : DlError)
    (hfail : (download_model server fuel rf).outcome = DlOutcome.failure e) :
    (download_model server fuel false).fileOnDisk = none ∧
    (download_model server fuel true).outcome = DlOutcome.failure e ∧
    (download_model server fuel false).outcome = DlOutcome.failure e := by
  unfold download_model at hfail ⊢
  rcases hcore : downloadCore server fuel with ⟨e2, log⟩ | st | ⟨e2, st⟩ | st <;>
      rw [hcore] at hfail
  · exact ⟨rfl, hfail, hfail⟩
  · cases hfail
  · exact ⟨rfl, hfail, hfail⟩
  · cases hfail

/-- Witness for C7: a server answering 404 makes the download fail with
the request error, and no file is left on disk. -/
theorem download_model_cleanup_on_failure_witness :
    (download_model failingServer 1 false).fileOnDisk = none ∧
    (download_model failingServer 1 true).outcome =
      DlOutcome.failure (DlError.requestFailed 404) ∧
    (download_model failingServer 1 false).outcome =
      DlOutcome.failure (DlError.requestFailed 404) :=
  download_model_cleanup_on_failure failingServer 1 false
    (DlError.requestFailed 404) rfl

theorem dlLoop_stalledAbrupt (n : Nat) :
    ∀ (fuel : Nat) (log : List (Option Nat)),
    ∃ st, dlLoop (stalledAbruptServer n) n fuel ⟨200, n, "", [], true⟩ ⟨[], log⟩ =
      LoopOut.fuelOut st := by
  intro fuel
  induction fuel with
  | zero => intro log; exact ⟨⟨[], log⟩, rfl⟩
  | succ m ih =>
    intro log
    have hstep : dlLoop (stalledAbruptServer n) n (m + 1) ⟨200, n, "", [], true⟩
        ⟨[], log⟩ =
        dlLoop (stalledAbruptServer n) n m ⟨200, n, "", [], true⟩
        ⟨[], log ++ [none]⟩ := by
      simp [dlLoop, mkRequest, checkResp, stalledAbruptServer, rangeHeader]
    rw [hstep]
    exact ih (log ++ [none])

/-- C1 counterexample: a server with a non zero declared total that
closes the socket mid body having delivered nothing, on every round,
makes every retry round add zero new bytes while staying short of the
declared total; yet download_model never raises the stalled error and
retries forever, exhausting any fuel bound.  The quoted no progress guard
does not fire on rounds that end in the mid stream disconnect
exception. -/
theorem download_model_abrupt_stall_retries_forever :
    downloadRunsForever (stalledAbruptServer 5) := by
  intro fuel
  unfold download_model downloadCore
  have hinit : mkRequest (stalledAbruptServer 5) 0 ⟨[], []⟩ =
      Except.ok (⟨200, 5, "", [], true⟩, ⟨[], [none]⟩) := by
    simp [mkRequest, checkResp, stalledAbruptServer, rangeHeader]
  rw [hinit]
  obtain ⟨st, hst⟩ := dlLoop_stalledAbrupt 5 fuel [none]
  dsimp only
  rw [hst]

/-- C1 amended: the no progress guard is tied to rounds whose stream ends
cleanly.  A round whose response ends without a mid stream disconnect and
adds zero new bytes while the bytes written are short of the non zero
declared total makes the loop abort with the stalled error immediately in
that round; in particular a download whose first response is such a round
fails with the stalled error under any fuel bound of at least one. -/
theorem download_model_clean_round_no_progress_stalls (server : Nat → Response)
    (total fuel : Nat) (resp : Response) (st : DlState) (rf : Bool) :
    (resp.abrupt = false → resp.chunks.flatten = [] → total ≠ 0 →
      st.file.length < total →
      dlLoop server total (fuel + 1) resp st = LoopOut.fail DlError.stalled st) ∧
    ((server 0).status = 200 → (server 0).abrupt = false →
      (server 0).chunks.flatten = [] → (server 0).contentLength ≠ 0 →
      (download_model server (fuel + 1) rf).outcome =
        DlOutcome.failure DlError.stalled) := by
  constructor
  · intro habrupt hzero htot hshort
    simp [dlLoop, habrupt, hzero, htot, hshort]
  · intro hstatus habrupt hzero htot
    unfold download_model downloadCore
    have hinit : mkRequest server 0 ⟨[], []⟩ =
        Except.ok (server 0, ⟨[], [none]⟩) := by
      simp [mkRequest, checkResp, hstatus, rangeHeader]
    rw [hinit]
    dsimp only
    have hround : dlLoop server (server 0).contentLength (fuel + 1) (server 0)
        ⟨[], [none]⟩ = LoopOut.fail DlError.stalled ⟨[], [none]⟩ := by
      simp [dlLoop, habrupt, hzero, htot, Nat.pos_of_ne_zero htot]
    rw [hround]

/-- Witness for the amended C1 at a concrete clean but empty response. -/
theorem download_model_clean_round_no_progress_stalls_witness :
    dlLoop cleanStallServer 5 1 ⟨200, 5, "", [], false⟩ ⟨[], [none]⟩ =
      LoopOut.fail DlError.stalled ⟨[], [none]⟩ ∧
    (download_model cleanStallServer 1 false).outcome =
      DlOutcome.failure DlError.stalled :=
  ⟨(download_model_clean_round_no_progress_stalls cleanStallServer 5 0
      ⟨200, 5, "", [], false⟩ ⟨[], [none]⟩ false).1 rfl rfl (by decide) (by decide),
   (download_model_clean_round_no_progress_stalls cleanStallServer 5 0
      ⟨200, 5, "", [], false⟩ ⟨[], [none]⟩ false).2 rfl rfl rfl (by decide)⟩

theorem checkResp_zero_ok (r : Response) (h : r.status = 200 ∨ r.status = 206) :
    checkResp 0 r = Except.ok r := by
  rcases h with h | h <;> simp [checkResp, h]

theorem checkResp_resume_ok (off : Nat) (r : Response) (hoff : off ≠ 0)
    (hst : r.status = 206)
    (hcr : strContainsSub (Nat.repr off) r.contentRange = true) :
    checkResp off r = Except.ok r := by
  simp [checkResp, hst, hoff, hcr]

theorem checkResp_resume_fail (off : Nat) (r : Response) (hoff : off ≠ 0)
    (hok : r.status = 200 ∨ r.status = 206)
    (hbad : r.status ≠ 206 ∨ strContainsSub (Nat.repr off) r.contentRange = false) :
    checkResp off r = Except.error DlError.rangeUnsupported := by
  have h1 : ¬ (r.status ≠ 200 ∧ r.status ≠ 206) := by
    rcases hok with h | h <;> simp [h]
  rw [checkResp, if_neg h1, if_pos ⟨hoff, hbad⟩]

theorem checkResp_status_fail (off : Nat) (r : Response)
    (h200 : r.status ≠ 200) (h206 : r.status ≠ 206) :
    checkResp off r = Except.error (DlError.requestFailed r.status) := by
  rw [checkResp, if_pos ⟨h200, h206⟩]

theorem download_model_eq_of_init (server : Nat → Response) (fuel : Nat) (rf : Bool)
    (r : Response) (st : DlState)
    (hinit : mkRequest server 0 ⟨[], []⟩ = Except.ok (r, st)) :
    download_model server fuel rf =
      (match dlLoop server r.contentLength fuel r st with
       | LoopOut.done st2 => ⟨DlOutcome.success, some st2.file, st2.reqLog⟩
       | LoopOut.fail e st2 =>
         ⟨DlOutcome.failure e, if rf then some st2.file else none, st2.reqLog⟩
       | LoopOut.fuelOut st2 =>
         ⟨DlOutcome.fuelExhausted, some st2.file, st2.reqLog⟩) := by
  unfold download_model downloadCore
  rw [hinit]
  dsimp only
  rcases dlLoop server r.contentLength fuel r st with st2 | ⟨e, st2⟩ | st2 <;> rfl

theorem resume_mkRequest_init (bytes : List Nat) (k : Nat) (X : Response) :
    mkRequest (resumeServer bytes k X) 0 ⟨[], []⟩ =
      Except.ok (firstPartResp bytes k, ⟨[], [none]⟩) := by
  have hc : checkResp 0 (firstPartResp bytes k) = Except.ok (firstPartResp bytes k) :=
    checkResp_zero_ok _ (Or.inl rfl)
  simp [mkRequest, resumeServer, rangeHeader, hc]

theorem resume_round_one_mk (bytes : List Nat) (k : Nat) (X : Response)
    (hk : 0 < k) (hkN : k < bytes.length) :
    mkRequest (resumeServer bytes k X) (bytes.take k).length ⟨bytes.take k, [none]⟩ =
      (match checkResp k X with
       | Except.error e => Except.error (e, ⟨bytes.take k, [none, some k]⟩)
       | Except.ok r2 => Except.ok (r2, ⟨bytes.take k, [none, some k]⟩)) := by
  have hlen : (bytes.take k).length = k := by
    rw [List.length_take]
    omega
  have hk0 : k ≠ 0 := by omega
  simp [mkRequest, resumeServer, rangeHeader, hlen, hk0]

theorem resume_round_one (bytes : List Nat) (k fuel total : Nat) (X : Response)
    (hk : 0 < k) (hkN : k < bytes.length) :
    dlLoop (resumeServer bytes k X) total (fuel + 1) (firstPartResp bytes k)
      ⟨[], [none]⟩ =
      (match checkResp k X with
       | Except.error e => LoopOut.fail e ⟨bytes.take k, [none, some k]⟩
       | Except.ok r2 =>
         dlLoop (resumeServer bytes k X) total fuel r2
           ⟨bytes.take k, [none, some k]⟩) := by
  have hmk := resume_round_one_mk bytes k X hk hkN
  simp only [dlLoop, firstPartResp, List.nil_append, List.flatten_cons,
    List.flatten_nil, List.append_nil, if_true]
  rw [hmk]
  rcases checkResp k X with e | r2 <;> rfl

theorem resume_round_two (bytes : List Nat) (k fuel : Nat) (X : Response) :
    dlLoop (resumeServer bytes k X) bytes.length (fuel + 1) (goodResume bytes k)
      ⟨bytes.take k, [none, some k]⟩ = LoopOut.done ⟨bytes, [none, some k]⟩ := by
  simp [dlLoop, goodResume, List.take_append_drop]

/-- C2: a download of declared size N interrupted once after byte k with
0 < k < N reissues the GET with a Range header at offset k (the request
log is the plain request followed by one ranged request at k, never a
restart from 0); when the server then answers with partial content status
and a Content-Range carrying the offset, the final file is the whole N
byte content, byte identical to the file of an uninterrupted download.
If the resumed response is a success response without partial content
status or without the offset in its Content-Range, the download fails
with the range unsupported error; a non success status on the resumed
response fails with the generic request error before the range check is
reached. -/
theorem download_model_resume_round_trip (bytes : List Nat) (k fuel : Nat)
    (second : Response) (hk : 0 < k) (hkN : k < bytes.length) :
    (download_model (resumeServer bytes k (goodResume bytes k)) (fuel + 2) false =
        ⟨DlOutcome.success, some bytes, [none, some k]⟩ ∧
      download_model (uninterruptedServer bytes) (fuel + 1) false =
        ⟨DlOutcome.success, some bytes, [none]⟩) ∧
    (second.status ≠ 200 → second.status ≠ 206 →
      (download_model (resumeServer bytes k second) (fuel + 2) false).outcome =
        DlOutcome.failure (DlError.requestFailed second.status)) ∧
    ((second.status = 200 ∨ second.status = 206) →
      (second.status ≠ 206 ∨
        strContainsSub (Nat.repr k) second.contentRange = false) →
      (download_model (resumeServer bytes k second) (fuel + 2) false).outcome =
        DlOutcome.failure DlError.rangeUnsupported) := by
  have hk0 : k ≠ 0 := by omega
  refine ⟨⟨?_, ?_⟩, ?_, ?_⟩
  · rw [download_model_eq_of_init _ _ _ _ _ (resume_mkRequest_init bytes k _)]
    have hcr : checkResp k (goodResume bytes k) = Except.ok (goodResume bytes k) :=
      checkResp_resume_ok k _ hk0 rfl (strContainsSub_mid (Nat.repr k) _ _)
    have h21 : (fuel + 2) = (fuel + 1) + 1 := rfl
    rw [show (firstPartResp bytes k).contentLength = bytes.length from rfl, h21,
      resume_round_one bytes k (fuel + 1) bytes.length _ hk hkN, hcr]
    dsimp only
    rw [resume_round_two bytes k fuel]
  · have hinit : mkRequest (uninterruptedServer bytes) 0 ⟨[], []⟩ =
        Except.ok (⟨200, bytes.length, "", [bytes], false⟩, ⟨[], [none]⟩) := by
      have hc : checkResp 0 (⟨200, bytes.length, "", [bytes], false⟩ : Response) =
          Except.ok ⟨200, bytes.length, "", [bytes], false⟩ :=
        checkResp_zero_ok _ (Or.inl rfl)
      simp [mkRequest, uninterruptedServer, rangeHeader, hc]
    rw [download_model_eq_of_init _ _ _ _ _ hinit]
    have hloop : dlLoop (uninterruptedServer bytes) bytes.length (fuel + 1)
        ⟨200, bytes.length, "", [bytes], false⟩ ⟨[], [none]⟩ =
        LoopOut.done ⟨bytes, [none]⟩ := by
      simp [dlLoop]
    rw [show (⟨200, bytes.length, "", [bytes], false⟩ : Response).contentLength =
      bytes.length from rfl, hloop]
  · intro h200 h206
    rw [download_model_eq_of_init _ _ _ _ _ (resume_mkRequest_init bytes k _)]
    have hcr : checkResp k second = Except.error (DlError.requestFailed second.status) :=
      checkResp_status_fail k second h200 h206
    have h21 : (fuel + 2) = (fuel + 1) + 1 := rfl
    rw [show (firstPartResp bytes k).contentLength = bytes.length from rfl, h21,
      resume_round_one bytes k (fuel + 1) bytes.length _ hk hkN, hcr]
  · intro hok hbad
    rw [download_model_eq_of_init _ _ _ _ _ (resume_mkRequest_init bytes k _)]
    have hcr : checkResp k second = Except.error DlError.rangeUnsupported :=
      checkResp_resume_fail k second hk0 hok hbad
    have h21 : (fuel + 2) = (fuel + 1) + 1 := rfl
    rw [show (firstPartResp bytes k).contentLength = bytes.length from rfl, h21,
      resume_round_one bytes k (fuel + 1) bytes.length _ hk hkN, hcr]

/-- Witness for C2 with the three byte file 10 20 30 interrupted after
one byte: the happy resume, the uninterrupted comparison, a 500 resumed
response, and a resumed response without partial content status. -/
theorem download_model_resume_round_trip_witness :
    (download_model (resumeServer [10, 20, 30] 1 (goodResume [10, 20, 30] 1)) 2 false =
      ⟨DlOutcome.success, some [10, 20, 30], [none, some 1]⟩) ∧
    (download_model (uninterruptedServer [10, 20, 30]) 1 false =
      ⟨DlOutcome.success, some [10, 20, 30], [none]⟩) ∧
    ((download_model (resumeServer [10, 20, 30] 1 ⟨500, 0, "", [], false⟩) 2
        false).outcome = DlOutcome.failure (DlError.requestFailed 500)) ∧
    ((download_model (resumeServer [10, 20, 30] 1
        ⟨200, 2, "bytes 0-2/3", [[20, 30]], false⟩) 2 false).outcome =
      DlOutcome.failure DlError.rangeUnsupported) :=
  ⟨(download_model_resume_round_trip [10, 20, 30] 1 0 (goodResume [10, 20, 30] 1)
      (by decide) (by decide)).1.1,
   (download_model_resume_round_trip [10, 20, 30] 1 0 (goodResume [10, 20, 30] 1)
      (by decide) (by decide)).1.2,
   (download_model_resume_round_trip [10, 20, 30] 1 0 ⟨500, 0, "", [], false⟩
      (by decide) (by decide)).2.1 (by decide) (by decide),
   (download_model_resume_round_trip [10, 20, 30] 1 0
      ⟨200, 2, "bytes 0-2/3", [[20, 30]], false⟩ (by decide) (by decide)).2.2
      (Or.inl rfl) (Or.inl (by decide))⟩
